import Mathlib

/-!
Shallow embedding of the session scheduling core of the Panchkarma backend
(controllers/feedback.controller.js, services/slotService.js,
models/session.models.js).

Modelling conventions:
- instants (Date values) are integers counting milliseconds;
- JavaScript numbers used for money and for fractional hour/minute arithmetic
  are modelled as exact rationals;
- each request handler becomes a function on an explicit session value (or an
  explicit list of stored sessions standing for the database collection),
  returning Except: an error value models an early HTTP error response, in
  which case nothing is persisted;
- the Mongoose pre save hook of the Session model is modelled by
  savePreValidate and is applied by every operation that persists through
  the document save path (cancel, reschedule); updateSessionStatus uses
  findByIdAndUpdate, which bypasses that hook, so it is not applied there.
-/

namespace Panchkarma

/-- Session status enumeration from the Session schema. -/
inductive Status
  | scheduled
  | confirmed
  | inProgress
  | completed
  | cancelled
  | noShow
deriving DecidableEq, Repr

/-- Requester role, from req.user.role. -/
inductive Role
  | patient
  | practitioner
  | admin
deriving DecidableEq, Repr

/-- One entry of rescheduleHistory, as pushed by rescheduleSession. -/
structure RescheduleEntry where
  originalStart : Int
  originalEnd : Int
  newStart : Int
  newEnd : Int
  reason : String
  rescheduledBy : Nat
  rescheduledAt : Int
deriving DecidableEq, Repr

/-- The notes buckets of the Session schema. -/
structure Notes where
  preSession : String := ""
  duringSession : String := ""
  postSession : String := ""
deriving DecidableEq, Repr

/-- The Session document, restricted to the fields the scheduling core
reads or writes. Times are milliseconds; price and monetary amounts are
rationals. -/
structure Session where
  id : Nat
  patient : Nat
  practitioner : Nat
  startTime : Int
  endTime : Int
  status : Status
  price : ℚ
  notes : Notes := {}
  actualStartTime : Option Int := none
  actualEndTime : Option Int := none
  rescheduleHistory : List RescheduleEntry := []
  cancellationReason : String := ""
  cancelledBy : Option Nat := none
  cancelledAt : Option Int := none
  cancellationFee : ℚ := 0
  refundAmount : ℚ := 0
  cancellationType : String := ""
deriving DecidableEq, Repr

/-- The statuses treated as active by every conflict query:
status in [scheduled, confirmed, in-progress]. -/
def activeStatuses : List Status := [.scheduled, .confirmed, .inProgress]

/-- TimeWindow overlap predicate of the spec; every conflict query in the
source spells out the same half open comparison startTime lt end and
endTime gt start. -/
def overlaps (aStart aEnd bStart bEnd : Int) : Bool :=
  decide (aStart < bEnd) && decide (aEnd > bStart)

/-- services/slotService.js checkSlotAvailability: returns true when no
stored session of the practitioner in an active status has
startTime lt endTime and endTime gt startTime. Note the source function
takes exactly three parameters; the fourth argument that rescheduleSession
passes, the id of the session being moved, has no matching parameter and
is silently dropped, so no session is ever excluded from this check. -/
def checkSlotAvailability (sessions : List Session) (practitionerId : Nat)
    (startTime endTime : Int) : Bool :=
  !(sessions.any fun c =>
    decide (c.practitioner = practitionerId) &&
    decide (c.status ∈ activeStatuses) &&
    decide (c.startTime < endTime) && decide (c.endTime > startTime))

/-- Errors raised by the pre save hook of models/session.models.js. -/
inductive SaveError
  | nonChronological
  | inPast
deriving DecidableEq, Repr

/-- The pre save hook of the Session model: rejects startTime ge endTime
and startTime strictly before the current instant. It runs on every
document save. -/
def savePreValidate (s : Session) (now : Int) : Except SaveError Session :=
  if s.startTime ≥ s.endTime then .error .nonChronological
  else if s.startTime < now then .error .inPast
  else .ok s

/-- Model of the JavaScript string trim method: strip leading and
trailing whitespace. Defined structurally over the character list so
that concrete evaluation reduces in the kernel. -/
def trimString (s : String) : String :=
  ⟨((s.data.dropWhile fun c => c.isWhitespace).reverse.dropWhile
    fun c => c.isWhitespace).reverse⟩

/-- Hours from the current instant to the session start, as in
cancelSession: (sessionStart - now) / (1000 * 60 * 60). -/
def hoursUntil (startTime now : Int) : ℚ :=
  ((startTime - now : Int) : ℚ) / (1000 * 60 * 60)

/-- Error responses of cancelSession. -/
inductive CancelError
  | validation
  | unauthorized
  | invalidState (current : Status)
  | saveFailed (e : SaveError)
deriving DecidableEq, Repr

/-- Successful cancellation payload: the persisted session together with
the fee and refund reported in the response body. -/
structure CancelResult where
  session : Session
  cancellationFee : ℚ
  refundAmount : ℚ
deriving DecidableEq, Repr

/-- cancelSession from the controller: reason length check, authorization,
status guard rejecting completed, cancelled and in-progress, the tiered
fee computation, then the mutation persisted through session.save, which
runs the pre save hook. -/
def cancelSession (s : Session) (reason : String) (userId : Nat)
    (userRole : Role) (cancellationType : String) (now : Int) :
    Except CancelError CancelResult :=
  if (trimString reason).length < 10 then .error .validation
  else if ¬(s.patient = userId ∨ s.practitioner = userId ∨ userRole = .admin) then
    .error .unauthorized
  else if s.status ∈ [Status.completed, Status.cancelled, Status.inProgress] then
    .error (.invalidState s.status)
  else
    let hoursUntilSession := hoursUntil s.startTime now
    let cancellationFee : ℚ :=
      if hoursUntilSession < 2 then s.price * 0.5
      else if hoursUntilSession < 24 then s.price * 0.25
      else 0
    let refundAmount : ℚ :=
      if hoursUntilSession < 2 then s.price * 0.5
      else if hoursUntilSession < 24 then s.price * 0.75
      else s.price
    let updated : Session :=
      { s with
        status := .cancelled
        cancellationReason := trimString reason
        cancelledBy := some userId
        cancelledAt := some now
        cancellationFee := cancellationFee
        refundAmount := refundAmount
        cancellationType := cancellationType }
    match savePreValidate updated now with
    | .error e => .error (.saveFailed e)
    | .ok saved => .ok ⟨saved, cancellationFee, refundAmount⟩

/-- The allowed transition table of updateSessionStatus. -/
def validTransitions : Status → List Status
  | .scheduled => [.confirmed, .cancelled, .noShow]
  | .confirmed => [.inProgress, .cancelled, .noShow]
  | .inProgress => [.completed, .cancelled]
  | .completed => []
  | .cancelled => []
  | .noShow => []

/-- Error responses of updateSessionStatus. -/
inductive UpdateError
  | unauthorized
  | invalidTransition (current requested : Status)
deriving DecidableEq, Repr

/-- The field updates assembled by updateSessionStatus once the transition
check has passed: the new status, the idempotent actual time stamps, and
the notes bucket routing, which tests the current (pre update) status
first. An absent or empty notes string is falsy in the source and routes
nothing. -/
def applyStatusUpdates (s : Session) (status? : Option Status)
    (notes? : Option String) (now : Int) : Session :=
  let s1 :=
    match status? with
    | some st =>
      { s with
        status := st
        actualStartTime :=
          if st = .inProgress ∧ s.actualStartTime = none then some now
          else s.actualStartTime
        actualEndTime :=
          if ¬(st = .inProgress ∧ s.actualStartTime = none) ∧
              st = .completed ∧ s.actualEndTime = none then some now
          else s.actualEndTime }
    | none => s
  match notes? with
  | some n =>
    if n ≠ "" then
      if s.status = .scheduled ∨ s.status = .confirmed then
        { s1 with notes := { s1.notes with preSession := n } }
      else if s.status = .inProgress ∨ status? = some .inProgress then
        { s1 with notes := { s1.notes with duringSession := n } }
      else if status? = some .completed then
        { s1 with notes := { s1.notes with postSession := n } }
      else s1
    else s1
  | none => s1

/-- updateSessionStatus from the controller: authorization (assigned
practitioner or admin), the transition table check when a status is
supplied, then the update applied through findByIdAndUpdate. An error
return models the early error response, with no write to the session. -/
def updateSessionStatus (s : Session) (status? : Option Status)
    (notes? : Option String) (userId : Nat) (userRole : Role) (now : Int) :
    Except UpdateError Session :=
  if ¬(s.practitioner = userId ∨ userRole = .admin) then .error .unauthorized
  else
    match status? with
    | some st =>
      if st ∉ validTransitions s.status then
        .error (.invalidTransition s.status st)
      else .ok (applyStatusUpdates s (some st) notes? now)
    | none => .ok (applyStatusUpdates s none notes? now)

/-- Error responses of rescheduleSession. -/
inductive RescheduleError
  | validation
  | unauthorized
  | invalidState (current : Status)
  | pastTime
  | invalidTiming
  | slotUnavailable
  | patientConflict
  | saveFailed (e : SaveError)
deriving DecidableEq, Repr

/-- rescheduleSession from the controller. The sessions list stands for
the stored collection, which contains the session being moved. The
practitioner conflict check calls checkSlotAvailability, whose source
signature drops the passed exclusion id; the patient conflict query does
exclude the session by id with a not equal filter. On success the window
is replaced, one history entry is appended, the status is reset to
scheduled, and the document is saved through the pre save hook. -/
def rescheduleSession (sessions : List Session) (s : Session)
    (newStart newEnd : Int) (reason : String) (userId : Nat)
    (userRole : Role) (now : Int) : Except RescheduleError Session :=
  if reason = "" then .error .validation
  else if ¬(s.patient = userId ∨ s.practitioner = userId ∨ userRole = .admin) then
    .error .unauthorized
  else if s.status ∉ [Status.scheduled, Status.confirmed] then
    .error (.invalidState s.status)
  else if newStart ≤ now then .error .pastTime
  else if newEnd ≤ newStart then .error .invalidTiming
  else if ¬ checkSlotAvailability sessions s.practitioner newStart newEnd then
    .error .slotUnavailable
  else if sessions.any (fun c =>
      decide (c.patient = s.patient) && decide (c.id ≠ s.id) &&
      decide (c.status ∈ activeStatuses) &&
      decide (c.startTime < newEnd) && decide (c.endTime > newStart)) then
    .error .patientConflict
  else
    let updated : Session :=
      { s with
        startTime := newStart
        endTime := newEnd
        rescheduleHistory := s.rescheduleHistory ++
          [⟨s.startTime, s.endTime, newStart, newEnd, reason, userId, now⟩]
        status := .scheduled }
    match savePreValidate updated now with
    | .error e => .error (.saveFailed e)
    | .ok saved => .ok saved

/-- Therapy catalog item fields read by bookSession. Duration is in
minutes. -/
structure Therapy where
  duration : ℕ
  price : ℚ
  isActive : Bool
deriving DecidableEq, Repr

/-- Error responses of bookSession. -/
inductive BookError
  | therapyNotFound
  | pastBooking
  | invalidTiming
  | durationMismatch
  | patientConflict
  | slotUnavailable
  | saveFailed (e : SaveError)
deriving DecidableEq, Repr

/-- bookSession from the controller, restricted to the scheduling core:
therapy active check, timing validation, the duration tolerance band,
the patient conflict query, the practitioner availability check, then
creation of the scheduled session, which runs the pre save hook. -/
def bookSession (sessions : List Session) (therapy : Therapy)
    (patientId practitionerId : Nat) (startTime endTime : Int) (now : Int)
    (newId : Nat) : Except BookError Session :=
  if ¬ therapy.isActive then .error .therapyNotFound
  else if startTime ≤ now then .error .pastBooking
  else if endTime ≤ startTime then .error .invalidTiming
  else
    let sessionDuration : ℚ := ((endTime - startTime : Int) : ℚ) / (1000 * 60)
    if sessionDuration < (therapy.duration : ℚ) * 0.8 ∨
        sessionDuration > (therapy.duration : ℚ) * 1.2 then
      .error .durationMismatch
    else if sessions.any (fun c =>
        decide (c.patient = patientId) && decide (c.status ∈ activeStatuses) &&
        decide (c.startTime < endTime) && decide (c.endTime > startTime)) then
      .error .patientConflict
    else if ¬ checkSlotAvailability sessions practitionerId startTime endTime then
      .error .slotUnavailable
    else
      let created : Session :=
        { id := newId
          patient := patientId
          practitioner := practitionerId
          startTime := startTime
          endTime := endTime
          status := .scheduled
          price := therapy.price }
      match savePreValidate created now with
      | .error e => .error (.saveFailed e)
      | .ok saved => .ok saved

/-- Working hours start, 9 AM, from getAvailableSlots. -/
def workingStart : ℕ := 9

/-- Working hours end, 6 PM. -/
def workingEnd : ℕ := 18

/-- Lunch break start hour, 1 PM. -/
def lunchStart : ℕ := 13

/-- Lunch break end hour, 2 PM. -/
def lunchEnd : ℕ := 14

/-- Slot granularity in minutes. -/
def slotInterval : ℕ := 30

/-- The candidate start instants enumerated by the two nested loops of
getAvailableSlots, as minutes since midnight of the target date: hours
from workingStart up to workingEnd exclusive, minutes stepping by
slotInterval. -/
def slotGrid : List ℕ :=
  (List.range' workingStart (workingEnd - workingStart)).flatMap fun hour =>
    (List.range' 0 (60 / slotInterval) slotInterval).map fun minute =>
      hour * 60 + minute

/-- The bookings fetched by getAvailableSlots: sessions of the
practitioner whose startTime lies inside the target day and whose status
is active. All instants here are milliseconds relative to midnight of the
target date, so the day spans 0 to 86399999. -/
def bookedOnDate (sessions : List Session) (practitionerId : Nat) :
    List Session :=
  sessions.filter fun c =>
    decide (c.practitioner = practitionerId) &&
    decide (0 ≤ c.startTime) && decide (c.startTime ≤ 86399999) &&
    decide (c.status ∈ activeStatuses)

/-- The filter a candidate start (in minutes) must pass inside the loop of
getAvailableSlots, in source order: the lunch hour continue on the loop
hour, the end of day continue comparing the wall clock hour of the slot
end (getHours wraps modulo 24), the past start continue, and the conflict
check against the fetched bookings. -/
def slotKeep (booked : List Session) (durationMin : ℕ) (now : Int)
    (n : ℕ) : Bool :=
  let hour := n / 60
  let slotEndMin := n + durationMin
  let endHours := slotEndMin / 60 % 24
  let endMinutes := slotEndMin % 60
  let slotStartMs : Int := (n : Int) * 60000
  let slotEndMs : Int := (slotEndMin : Int) * 60000
  !(decide (lunchStart ≤ hour) && decide (hour < lunchEnd)) &&
  !(decide (endHours ≥ workingEnd) ||
    (decide (endHours = lunchStart) && decide (0 < endMinutes))) &&
  decide (now < slotStartMs) &&
  !(booked.any fun c =>
    decide (slotStartMs < c.endTime) && decide (slotEndMs > c.startTime))

/-- getAvailableSlots from the controller, reduced to its slot list: the
surviving candidates with their start and end instants in milliseconds
relative to midnight of the target date. An empty list is an ordinary
result, not an error. -/
def getAvailableSlots (sessions : List Session) (practitionerId : Nat)
    (durationMin : ℕ) (now : Int) : List (Int × Int) :=
  let booked := bookedOnDate sessions practitionerId
  (slotGrid.filter (slotKeep booked durationMin now)).map fun (n : ℕ) =>
    ((n : Int) * 60000, (Int.ofNat (n + durationMin) * 60000))

/-- Modelled from the words of the spec, for comparison with
getAvailableSlots only: keep a grid candidate when its window does not
intersect the lunch break, its end does not exceed the end of day
boundary, its start is strictly in the future, and it overlaps no active
booking of the practitioner on that date. -/
def specAvailableSlots (sessions : List Session) (practitionerId : Nat)
    (durationMin : ℕ) (now : Int) : List (Int × Int) :=
  let booked := bookedOnDate sessions practitionerId
  (slotGrid.filter fun n =>
    let slotEndMin := n + durationMin
    let slotStartMs : Int := (n : Int) * 60000
    let slotEndMs : Int := (slotEndMin : Int) * 60000
    !(overlaps slotStartMs slotEndMs ((lunchStart : Int) * 3600000)
      ((lunchEnd : Int) * 3600000)) &&
    decide (slotEndMin ≤ workingEnd * 60) &&
    decide (now < slotStartMs) &&
    !(booked.any fun c =>
      overlaps slotStartMs slotEndMs c.startTime c.endTime)).map fun (n : ℕ) =>
    ((n : Int) * 60000, (Int.ofNat (n + durationMin) * 60000))

deriving instance DecidableEq for Except

/-- Helper: closed form of a successful cancellation, used to discharge
concrete witness equations. -/
theorem cancelSession_ok_of (s : Session) (reason : String) (userId : Nat)
    (userRole : Role) (cancellationType : String) (now : Int)
    (h1 : ¬((trimString reason).length < 10))
    (h2 : s.patient = userId ∨ s.practitioner = userId ∨ userRole = .admin)
    (h3 : s.status ∉ [Status.completed, Status.cancelled, Status.inProgress])
    (h4 : ¬(s.startTime ≥ s.endTime))
    (h5 : ¬(s.startTime < now)) :
    cancelSession s reason userId userRole cancellationType now =
      .ok ⟨{ s with
          status := .cancelled
          cancellationReason := trimString reason
          cancelledBy := some userId
          cancelledAt := some now
          cancellationFee :=
            if hoursUntil s.startTime now < 2 then s.price * 0.5
            else if hoursUntil s.startTime now < 24 then s.price * 0.25
            else 0
          refundAmount :=
            if hoursUntil s.startTime now < 2 then s.price * 0.5
            else if hoursUntil s.startTime now < 24 then s.price * 0.75
            else s.price
          cancellationType := cancellationType },
        (if hoursUntil s.startTime now < 2 then s.price * 0.5
          else if hoursUntil s.startTime now < 24 then s.price * 0.25
          else 0),
        (if hoursUntil s.startTime now < 2 then s.price * 0.5
          else if hoursUntil s.startTime now < 24 then s.price * 0.75
          else s.price)⟩ := by
  simp only [cancelSession, savePreValidate]
  split_ifs with hA hB hC hD hE <;> first
    | rfl
    | exact absurd hA h1
    | exact absurd h2 hB
    | exact absurd hC h3
    | exact absurd hD h4
    | exact absurd hE h5

/-- Fixture: a session one hour from instant zero, price 1000. -/
def tierSession : Session :=
  { id := 1, patient := 2, practitioner := 3, startTime := 3600000,
    endTime := 7200000, status := .scheduled, price := 1000 }

/-- Fixture: the expected outcome of cancelling tierSession at instant
zero with a fifty percent fee. -/
def tierResult : CancelResult :=
  ⟨{ tierSession with
      status := .cancelled
      cancellationReason := "changed my mind today"
      cancelledBy := some 2
      cancelledAt := some 0
      cancellationFee := 500
      refundAmount := 500
      cancellationType := "patient" }, 500, 500⟩

/-- Claim C1: for every cancellation of a session with price p, the fee
and refund are determined exactly by hoursUntilStart: below 2 hours the
fee and refund are both half of p; from 2 up to 24 hours the fee is a
quarter of p and the refund three quarters; at 24 hours or more the fee
is zero and the refund is p. -/
theorem cancelSession_fee_refund_tiers (s : Session) (reason : String)
    (userId : Nat) (userRole : Role) (cancellationType : String) (now : Int)
    (r : CancelResult)
    (h : cancelSession s reason userId userRole cancellationType now = .ok r) :
    (hoursUntil s.startTime now < 2 →
      r.cancellationFee = 0.5 * s.price ∧ r.refundAmount = 0.5 * s.price) ∧
    (2 ≤ hoursUntil s.startTime now → hoursUntil s.startTime now < 24 →
      r.cancellationFee = 0.25 * s.price ∧ r.refundAmount = 0.75 * s.price) ∧
    (24 ≤ hoursUntil s.startTime now →
      r.cancellationFee = 0 ∧ r.refundAmount = s.price) := by
  simp only [cancelSession, savePreValidate] at h
  split_ifs at h with h1 h2 h3 h4 h5 h6 h7 <;>
    simp only [Except.ok.injEq, reduceCtorEq] at h <;>
    subst h <;>
    refine ⟨fun ha => ?_, fun hb hc => ?_, fun hd => ?_⟩ <;>
    first
      | exact absurd ha (by linarith)
      | exact absurd hd (by linarith)
      | exact absurd h4 (by linarith)
      | exact absurd h5 (by linarith)
      | constructor <;> ring

/-- Witness for claim C1: cancelling tierSession one hour before start
yields a fee of 500 and a refund of 500 on a price of 1000. -/
theorem cancelSession_fee_refund_tiers_witness :
    cancelSession tierSession ("changed my mind today") 2 .patient
      ("patient") 0 = .ok tierResult ∧
    hoursUntil tierSession.startTime 0 < 2 ∧
    tierResult.cancellationFee = 0.5 * tierSession.price ∧
    tierResult.refundAmount = 0.5 * tierSession.price := by
  have hok : cancelSession tierSession ("changed my mind today") 2 .patient
      ("patient") 0 = .ok tierResult := by
    rw [cancelSession_ok_of tierSession ("changed my mind today") 2 .patient
      ("patient") 0 (by decide) (Or.inl rfl) (by decide) (by decide) (by decide)]
    simp only [tierResult, tierSession, hoursUntil, Except.ok.injEq]
    norm_num
    decide
  have hlt : hoursUntil tierSession.startTime 0 < 2 := by
    norm_num [hoursUntil, tierSession]
  have hmain := (cancelSession_fee_refund_tiers tierSession
    ("changed my mind today") 2 .patient ("patient") 0 tierResult hok).1 hlt
  exact ⟨hok, hlt, hmain.1, hmain.2⟩

/-- Fixture: a session ten hours from instant zero, price 1000. -/
def sumSession : Session :=
  { id := 4, patient := 2, practitioner := 3, startTime := 36000000,
    endTime := 39600000, status := .confirmed, price := 1000 }

/-- Fixture: the expected outcome of cancelling sumSession at instant
zero with a twenty five percent fee. -/
def sumResult : CancelResult :=
  ⟨{ sumSession with
      status := .cancelled
      cancellationReason := "schedule conflict came up"
      cancelledBy := some 2
      cancelledAt := some 0
      cancellationFee := 250
      refundAmount := 750
      cancellationType := "patient" }, 250, 750⟩

/-- Claim C3: for every session the cancel operation successfully moves
into the cancelled status, cancellationFee plus refundAmount equals the
price, for all values of hoursUntilStart. -/
theorem cancelSession_fee_refund_sum (s : Session) (reason : String)
    (userId : Nat) (userRole : Role) (cancellationType : String) (now : Int)
    (r : CancelResult)
    (h : cancelSession s reason userId userRole cancellationType now = .ok r) :
    r.cancellationFee + r.refundAmount = s.price := by
  simp only [cancelSession, savePreValidate] at h
  split_ifs at h <;>
    simp only [Except.ok.injEq, reduceCtorEq] at h <;>
    subst h <;> ring

/-- Witness for claim C3: cancelling sumSession ten hours before start
yields fee 250 plus refund 750, equal to the price 1000. -/
theorem cancelSession_fee_refund_sum_witness :
    cancelSession sumSession ("schedule conflict came up") 2 .patient
      ("patient") 0 = .ok sumResult ∧
    sumResult.cancellationFee + sumResult.refundAmount = sumSession.price := by
  have hok : cancelSession sumSession ("schedule conflict came up") 2 .patient
      ("patient") 0 = .ok sumResult := by
    rw [cancelSession_ok_of sumSession ("schedule conflict came up") 2 .patient
      ("patient") 0 (by decide) (Or.inl rfl) (by decide) (by decide) (by decide)]
    simp only [sumResult, sumSession, hoursUntil, Except.ok.injEq]
    norm_num
    decide
  exact ⟨hok, cancelSession_fee_refund_sum sumSession
    ("schedule conflict came up") 2 .patient ("patient") 0 sumResult hok⟩

/-- Claim C2: for every session and every requested status outside the
allowed transition table for the current status, the status update
operation fails with an invalid transition error naming the current and
requested status; the error return models the early response, before any
write, so the session is left unmodified. -/
theorem updateSessionStatus_invalid_transition (s : Session) (st : Status)
    (notes? : Option String) (userId : Nat) (userRole : Role) (now : Int)
    (hAuth : s.practitioner = userId ∨ userRole = .admin)
    (hBad : st ∉ validTransitions s.status) :
    updateSessionStatus s (some st) notes? userId userRole now =
      .error (.invalidTransition s.status st) := by
  simp only [updateSessionStatus]
  rw [if_neg (not_not_intro hAuth), if_pos hBad]

/-- Witness for claim C2: requesting completed from a scheduled session
is outside the table and is rejected naming both statuses. -/
theorem updateSessionStatus_invalid_transition_witness :
    ((2 : Nat) = 2 ∨ Role.practitioner = Role.admin) ∧
    Status.completed ∉ validTransitions Status.scheduled ∧
    updateSessionStatus
      { id := 1, patient := 9, practitioner := 2, startTime := 100,
        endTime := 200, status := .scheduled, price := 50 }
      (some .completed) none 2 .practitioner 0 =
      .error (.invalidTransition .scheduled .completed) :=
  ⟨Or.inl rfl, by decide,
    updateSessionStatus_invalid_transition
      { id := 1, patient := 9, practitioner := 2, startTime := 100,
        endTime := 200, status := .scheduled, price := 50 }
      .completed none 2 .practitioner 0 (Or.inl rfl) (by decide)⟩

/-- Fixture: an in-progress session used to refute claim C7. -/
def inProgressSession : Session :=
  { id := 5, patient := 2, practitioner := 3, startTime := 3600000,
    endTime := 7200000, status := .inProgress, price := 1000 }

/-- Counterexample to claim C7 as stated: the state machine permits the
transition in-progress to cancelled, and the requester here is the
patient with a reason of more than ten characters, yet the cancel
operation rejects the in-progress session with an invalid state error
instead of succeeding. -/
theorem cancelSession_inProgress_rejected :
    10 ≤ (trimString ("changed my mind today")).length ∧
    inProgressSession.patient = 2 ∧
    inProgressSession.status = .inProgress ∧
    cancelSession inProgressSession ("changed my mind today") 2 .patient
      ("patient") 0 = .error (.invalidState .inProgress) := by
  refine ⟨by decide, rfl, rfl, ?_⟩
  simp only [cancelSession]
  rw [if_neg (by decide), if_neg (by decide), if_pos (by decide)]
  rfl

/-- Claim C7 amended: for an authorized requester supplying a reason of
at least 10 characters, on a session whose window is chronological and
whose start has not yet passed, the cancel operation succeeds exactly
when the current status is scheduled, confirmed or no-show; it fails
from completed, cancelled and in-progress. This differs from the state
machine table: in-progress is rejected and no-show is accepted. -/
theorem cancelSession_success_iff (s : Session) (reason : String)
    (userId : Nat) (userRole : Role) (cancellationType : String) (now : Int)
    (hReason : 10 ≤ (trimString reason).length)
    (hAuth : s.patient = userId ∨ s.practitioner = userId ∨ userRole = .admin)
    (hNotPast : now ≤ s.startTime)
    (hChrono : s.startTime < s.endTime) :
    (cancelSession s reason userId userRole cancellationType now).isOk = true ↔
      (s.status = .scheduled ∨ s.status = .confirmed ∨ s.status = .noShow) := by
  have h1 : ¬((trimString reason).length < 10) := by omega
  have h4 : ¬(s.startTime ≥ s.endTime) := not_le.mpr hChrono
  have h5 : ¬(s.startTime < now) := not_lt.mpr hNotPast
  simp only [cancelSession, savePreValidate]
  split_ifs with hS <;> cases hst : s.status <;>
    simp_all [Except.isOk, Except.toBool]

/-- Witness for claim C7: a scheduled session with a valid reason and
an authorized patient requester is cancellable, and the success
equivalence holds at that input. -/
theorem cancelSession_success_iff_witness :
    10 ≤ (trimString ("changed my mind today")).length ∧
    ((0 : Int) ≤ 3600000) ∧ ((3600000 : Int) < 7200000) ∧
    ((cancelSession
      { id := 6, patient := 2, practitioner := 3, startTime := 3600000,
        endTime := 7200000, status := .scheduled, price := 1000 }
      ("changed my mind today") 2 .patient ("patient") 0).isOk = true ↔
      (Status.scheduled = Status.scheduled ∨
        Status.scheduled = Status.confirmed ∨
        Status.scheduled = Status.noShow)) :=
  ⟨by decide, by decide, by decide,
    cancelSession_success_iff
      { id := 6, patient := 2, practitioner := 3, startTime := 3600000,
        endTime := 7200000, status := .scheduled, price := 1000 }
      ("changed my mind today") 2 .patient ("patient") 0
      (by decide) (Or.inl rfl) (by decide) (by decide)⟩

/-- Claim C10: the document save path is guarded by the pre save
validation of the Session model, so the cancel operation, which saves the
document, can never succeed on a session whose start has already passed,
even though the fee policy has a tier covering hoursUntilStart below 2. -/
theorem cancelSession_blocked_on_past_session (s : Session) (reason : String)
    (userId : Nat) (userRole : Role) (cancellationType : String) (now : Int)
    (hPast : s.startTime < now) :
    (∃ e, savePreValidate s now = .error e) ∧
    hoursUntil s.startTime now < 2 ∧
    ∀ r, cancelSession s reason userId userRole cancellationType now ≠ .ok r := by
  refine ⟨?_, ?_, ?_⟩
  · simp only [savePreValidate]
    split_ifs <;> exact ⟨_, rfl⟩
  · have hneg : ((s.startTime - now : Int) : ℚ) < 0 := by
      exact_mod_cast sub_neg.mpr hPast
    have := div_neg_of_neg_of_pos hneg (by norm_num : (0 : ℚ) < 1000 * 60 * 60)
    unfold hoursUntil
    linarith
  · intro r
    simp only [cancelSession, savePreValidate]
    split_ifs with h1 h2 h3 h4 h5 <;> simp_all

/-- Witness for claim C10: a session whose start passed 100 milliseconds
ago cannot be cancelled; the save validation rejects it. -/
theorem cancelSession_blocked_on_past_session_witness :
    ((0 : Int) < 100) ∧
    ((∃ e, savePreValidate
      { id := 7, patient := 2, practitioner := 3, startTime := 0,
        endTime := 7200000, status := .scheduled, price := 1000 }
      100 = .error e) ∧
    hoursUntil 0 100 < 2 ∧
    ∀ r, cancelSession
      { id := 7, patient := 2, practitioner := 3, startTime := 0,
        endTime := 7200000, status := .scheduled, price := 1000 }
      ("changed my mind today") 2 .patient ("patient") 100 ≠ .ok r) :=
  ⟨by decide,
    cancelSession_blocked_on_past_session
      { id := 7, patient := 2, practitioner := 3, startTime := 0,
        endTime := 7200000, status := .scheduled, price := 1000 }
      ("changed my mind today") 2 .patient ("patient") 100 (by decide)⟩

/-- Fixture: a confirmed session with empty notes buckets, used to refute
claim C9. -/
def confirmedSession : Session :=
  { id := 8, patient := 2, practitioner := 3, startTime := 3600000,
    endTime := 7200000, status := .confirmed, price := 1000 }

/-- Counterexample to claim C9 as stated: the transition confirmed to
in-progress is in the table, yet the accompanying notes are stored in the
pre session bucket, not the during session bucket the claim names,
because the source routes notes primarily by the current status. -/
theorem updateSessionStatus_notes_into_inProgress_go_pre :
    Status.inProgress ∈ validTransitions confirmedSession.status ∧
    (updateSessionStatus confirmedSession (some .inProgress)
      (some ("patient arrived")) 3 .practitioner 3500000).map
      (fun t => (t.notes.preSession, t.notes.duringSession,
        t.notes.postSession)) = .ok (("patient arrived"), "", "") := by
  constructor
  · decide
  · simp only [updateSessionStatus, applyStatusUpdates]
    rw [if_neg (by decide), if_neg (by decide)]
    rfl

/-- Claim C9 amended: when a nonempty notes string accompanies a valid
transition, the bucket is chosen by the current (pre transition) status:
scheduled or confirmed file into the pre session bucket (so notes on a
transition into in-progress land in pre), in-progress files into the
during session bucket (so notes on a transition into completed land in
during), and the post session bucket is never written on a valid
transition. -/
theorem updateSessionStatus_notes_routing (s : Session) (st : Status)
    (n : String) (userId : Nat) (userRole : Role) (now : Int)
    (hAuth : s.practitioner = userId ∨ userRole = .admin)
    (hValid : st ∈ validTransitions s.status)
    (hN : n ≠ "") :
    (updateSessionStatus s (some st) (some n) userId userRole now).map
      (fun t => t.notes) =
      .ok ⟨(if s.status = .scheduled ∨ s.status = .confirmed then n
              else s.notes.preSession),
           (if s.status = .inProgress then n else s.notes.duringSession),
           s.notes.postSession⟩ := by
  simp only [updateSessionStatus, applyStatusUpdates]
  rw [if_neg (not_not_intro hAuth), if_neg (not_not_intro hValid)]
  cases hst : s.status <;>
    simp_all [validTransitions, Except.map] <;>
    rcases hValid with rfl | rfl | rfl <;>
    simp [hN]

/-- Witness for claim C9: notes on the valid transition scheduled to
confirmed are filed into the pre session bucket. -/
theorem updateSessionStatus_notes_routing_witness :
    (Status.confirmed ∈ validTransitions Status.scheduled) ∧
    (updateSessionStatus
      { id := 9, patient := 2, practitioner := 3, startTime := 100,
        endTime := 200, status := .scheduled, price := 10 }
      (some .confirmed) (some ("please prepare the oils")) 3 .practitioner
      50).map (fun t => t.notes) =
      .ok ⟨(if Status.scheduled = Status.scheduled ∨
              Status.scheduled = Status.confirmed then
              ("please prepare the oils") else ""),
           (if Status.scheduled = Status.inProgress then
              ("please prepare the oils") else ""),
           ""⟩ :=
  ⟨by decide,
    updateSessionStatus_notes_routing
      { id := 9, patient := 2, practitioner := 3, startTime := 100,
        endTime := 200, status := .scheduled, price := 10 }
      .confirmed ("please prepare the oils") 3 .practitioner 50
      (Or.inl rfl) (by decide) (by decide)⟩

/-- Claim C5: every successful reschedule appends exactly one history
entry capturing the old and new windows plus reason and actor, replaces
the start and end times with the new window, and resets the status to
scheduled regardless of the prior value. -/
theorem rescheduleSession_effect (sessions : List Session) (s : Session)
    (newStart newEnd : Int) (reason : String) (userId : Nat)
    (userRole : Role) (now : Int) (s2 : Session)
    (h : rescheduleSession sessions s newStart newEnd reason userId userRole
      now = .ok s2) :
    s2.rescheduleHistory = s.rescheduleHistory ++
      [⟨s.startTime, s.endTime, newStart, newEnd, reason, userId, now⟩] ∧
    s2.rescheduleHistory.length = s.rescheduleHistory.length + 1 ∧
    s2.startTime = newStart ∧ s2.endTime = newEnd ∧
    s2.status = .scheduled := by
  simp only [rescheduleSession, savePreValidate] at h
  split_ifs at h <;>
    simp only [Except.ok.injEq, reduceCtorEq] at h <;>
    subst h <;> simp

/-- Fixture: a confirmed session rescheduled in the C5 witness. Its
stored copy is the only session of its practitioner and patient, and the
new window does not overlap the old one. -/
def confirmedToMove : Session :=
  { id := 10, patient := 2, practitioner := 3, startTime := 100,
    endTime := 200, status := .confirmed, price := 100 }

/-- Witness for claim C5: rescheduling the confirmed session
confirmedToMove to the window from 300 to 400 succeeds, appends one
history entry, swaps the window and resets the status to scheduled. -/
theorem rescheduleSession_effect_witness :
    rescheduleSession [confirmedToMove] confirmedToMove 300 400
      ("need a later start") 2 .patient 0 =
      .ok { confirmedToMove with
        startTime := 300
        endTime := 400
        rescheduleHistory :=
          [⟨100, 200, 300, 400, ("need a later start"), 2, 0⟩]
        status := .scheduled } ∧
    ({ confirmedToMove with
        startTime := 300
        endTime := 400
        rescheduleHistory :=
          [⟨100, 200, 300, 400, ("need a later start"), 2, 0⟩]
        status := .scheduled } : Session).rescheduleHistory =
      confirmedToMove.rescheduleHistory ++
        [⟨confirmedToMove.startTime, confirmedToMove.endTime, 300, 400,
          ("need a later start"), 2, 0⟩] := by
  have hok : rescheduleSession [confirmedToMove] confirmedToMove 300 400
      ("need a later start") 2 .patient 0 =
      .ok { confirmedToMove with
        startTime := 300
        endTime := 400
        rescheduleHistory :=
          [⟨100, 200, 300, 400, ("need a later start"), 2, 0⟩]
        status := .scheduled } := by decide
  exact ⟨hok, (rescheduleSession_effect [confirmedToMove] confirmedToMove
    300 400 ("need a later start") 2 .patient 0 _ hok).1⟩

/-- Fixture: a scheduled session whose practitioner has no other booking,
used to exhibit the reschedule self conflict. -/
def selfConflictSession : Session :=
  { id := 11, patient := 2, practitioner := 3, startTime := 100,
    endTime := 200, status := .scheduled, price := 100 }

/-- Claim C6, failing input: the stored collection holds only the session
being moved, and the requested window from 150 to 250 overlaps only that
session's own current window, yet the reschedule fails with the slot
unavailable conflict error, because the three parameter
checkSlotAvailability ignores the exclusion id passed as a fourth
argument and finds the session in conflict with itself. -/
theorem rescheduleSession_conflicts_with_itself :
    overlaps selfConflictSession.startTime selfConflictSession.endTime
      150 250 = true ∧
    rescheduleSession [selfConflictSession] selfConflictSession 150 250
      ("need a slightly later start") 2 .patient 0 =
      .error .slotUnavailable := by
  constructor
  · decide
  · decide

/-- Claim C8: given a therapy and a window passing the timing and duration
validations, the booking is rejected with a conflict error (patient
conflict or slot unavailable) exactly when some stored active session of
the same patient or same practitioner overlaps the proposed window under
the half open predicate, and touching endpoints never overlap. -/
theorem bookSession_conflict_iff (sessions : List Session)
    (therapy : Therapy) (patientId practitionerId : Nat)
    (startTime endTime : Int) (now : Int) (newId : Nat)
    (hActive : therapy.isActive = true)
    (hFuture : now < startTime)
    (hChrono : startTime < endTime)
    (hBand : ¬(((endTime - startTime : Int) : ℚ) / (1000 * 60) <
        (therapy.duration : ℚ) * 0.8 ∨
      ((endTime - startTime : Int) : ℚ) / (1000 * 60) >
        (therapy.duration : ℚ) * 1.2)) :
    ((bookSession sessions therapy patientId practitionerId startTime
        endTime now newId = .error .patientConflict ∨
      bookSession sessions therapy patientId practitionerId startTime
        endTime now newId = .error .slotUnavailable) ↔
      ∃ c ∈ sessions, c.status ∈ activeStatuses ∧
        (c.patient = patientId ∨ c.practitioner = practitionerId) ∧
        overlaps c.startTime c.endTime startTime endTime = true) ∧
    (∀ aStart aEnd bStart bEnd : Int, aEnd = bStart ∨ aStart = bEnd →
      overlaps aStart aEnd bStart bEnd = false) := by
  constructor
  · simp only [bookSession, checkSlotAvailability, overlaps]
    rw [if_neg (by simp [hActive]), if_neg (not_le.mpr hFuture),
      if_neg (not_le.mpr hChrono), if_neg hBand]
    by_cases hp : sessions.any (fun c =>
        decide (c.patient = patientId) && decide (c.status ∈ activeStatuses) &&
        decide (c.startTime < endTime) && decide (c.endTime > startTime))
    · rw [if_pos hp]
      simp only [List.any_eq_true, Bool.and_eq_true, decide_eq_true_eq] at hp
      obtain ⟨c, hc, ⟨⟨hcp, hca⟩, hlt⟩, hgt⟩ := hp
      constructor
      · exact fun _ => ⟨c, hc, hca, Or.inl hcp, by simp [hlt, hgt]⟩
      · exact fun _ => Or.inl rfl
    · rw [if_neg hp]
      by_cases hq : sessions.any (fun c =>
          decide (c.practitioner = practitionerId) &&
          decide (c.status ∈ activeStatuses) &&
          decide (c.startTime < endTime) && decide (c.endTime > startTime))
      · rw [if_pos (by simp [hq])]
        simp only [List.any_eq_true, Bool.and_eq_true, decide_eq_true_eq] at hq
        obtain ⟨c, hc, ⟨⟨hcp, hca⟩, hlt⟩, hgt⟩ := hq
        constructor
        · exact fun _ => ⟨c, hc, hca, Or.inr hcp, by simp [hlt, hgt]⟩
        · exact fun _ => Or.inr rfl
      · rw [if_neg (by simp [hq])]
        simp only [savePreValidate]
        constructor
        · intro hL
          exfalso
          split_ifs at hL <;> simp_all
        · rintro ⟨c, hc, hca, hside, hov⟩
          exfalso
          simp only [Bool.and_eq_true, decide_eq_true_eq] at hov
          simp only [List.any_eq_true, Bool.and_eq_true, decide_eq_true_eq,
            not_exists] at hp hq
          rcases hside with hcp | hcp
          · exact hp c ⟨hc, ⟨⟨hcp, hca⟩, hov.1⟩, hov.2⟩
          · exact hq c ⟨hc, ⟨⟨hcp, hca⟩, hov.1⟩, hov.2⟩
  · intro aStart aEnd bStart bEnd htouch
    rcases htouch with rfl | rfl <;> simp [overlaps]

/-- Fixture: a stored scheduled session from 10:00 to 11:00 in
milliseconds from midnight, used in the C8 witness. -/
def bookedTenToEleven : Session :=
  { id := 12, patient := 7, practitioner := 5, startTime := 36000000,
    endTime := 39600000, status := .scheduled, price := 1000 }

/-- Fixture: the duration tolerance band hypothesis instantiated for the
C8 witness, a 60 minute window against a 60 minute therapy. -/
def bandProp : Prop :=
  ¬(((41400000 - 37800000 : Int) : ℚ) / (1000 * 60) <
      ((60 : ℕ) : ℚ) * 0.8 ∨
    ((41400000 - 37800000 : Int) : ℚ) / (1000 * 60) >
      ((60 : ℕ) : ℚ) * 1.2)

/-- Witness for claim C8: booking 10:30 to 11:30 against the stored
session 10:00 to 11:00 of the same practitioner is a conflict under the
half open predicate, so the conflict equivalence holds at that input. -/
theorem bookSession_conflict_iff_witness :
    (Therapy.mk 60 1000 true).isActive = true ∧
    ((0 : Int) < 37800000) ∧ ((37800000 : Int) < 41400000) ∧ bandProp ∧
    (((bookSession [bookedTenToEleven] (Therapy.mk 60 1000 true) 8 5
        37800000 41400000 0 13 = .error .patientConflict ∨
      bookSession [bookedTenToEleven] (Therapy.mk 60 1000 true) 8 5
        37800000 41400000 0 13 = .error .slotUnavailable) ↔
      ∃ c ∈ [bookedTenToEleven], c.status ∈ activeStatuses ∧
        (c.patient = 8 ∨ c.practitioner = 5) ∧
        overlaps c.startTime c.endTime 37800000 41400000 = true) ∧
    (∀ aStart aEnd bStart bEnd : Int, aEnd = bStart ∨ aStart = bEnd →
      overlaps aStart aEnd bStart bEnd = false)) := by
  have hBand : bandProp := by unfold bandProp; norm_num
  exact ⟨rfl, by decide, by decide, hBand,
    bookSession_conflict_iff [bookedTenToEleven] (Therapy.mk 60 1000 true)
      8 5 37800000 41400000 0 13 rfl (by decide) (by decide) hBand⟩

/-- Helper: the slot filter of getAvailableSlots as a proposition over a
candidate start in minutes. -/
theorem slotKeep_eq_true_iff (booked : List Session) (durationMin : ℕ)
    (now : Int) (n : ℕ) :
    slotKeep booked durationMin now n = true ↔
      (¬(lunchStart ≤ n / 60 ∧ n / 60 < lunchEnd) ∧
        ¬((n + durationMin) / 60 % 24 ≥ workingEnd ∨
          ((n + durationMin) / 60 % 24 = lunchStart ∧
            0 < (n + durationMin) % 60)) ∧
        now < (n : Int) * 60000 ∧
        ∀ c ∈ booked, ¬((n : Int) * 60000 < c.endTime ∧
          ((n + durationMin : ℕ) : Int) * 60000 > c.startTime)) := by
  simp only [slotKeep, Bool.and_eq_true, Bool.not_eq_true',
    Bool.and_eq_false_iff, Bool.or_eq_false_iff, decide_eq_true_eq,
    decide_eq_false_iff_not, List.any_eq_false, Bool.and_eq_true]
  tauto

/-- Counterexample to claim C4 as stated: with no bookings, a requested
duration of 30 minutes and the current instant one millisecond before
midnight of the target date, the 17:30 to 18:00 slot satisfies every
condition of the claim (its end does not exceed the 18:00 boundary, it
does not intersect the lunch break, its start is in the future, no
booking overlaps it), yet the code omits it, because the end of day test
discards any slot whose end hour reaches 18. -/
theorem getAvailableSlots_differs_from_spec :
    (63000000, 64800000) ∈ specAvailableSlots [] 0 30 (-1) ∧
    (63000000, 64800000) ∉ getAvailableSlots [] 0 30 (-1) := by
  constructor
  · decide
  · decide

/-- Claim C4 amended: the returned slots are exactly the 30 minute grid
candidates inside working hours whose start hour is outside the lunch
hour, whose end instant has wall clock hour (modulo 24) neither reaching
18 nor equal to 13 with nonzero minutes, whose start is strictly in the
future, and which overlap no active booking of the practitioner on that
date; the result is ordered by start ascending, and an empty list is an
ordinary result. The claim as stated fails on the end of day boundary:
a slot ending exactly at 18:00 is discarded, and a long window fully
containing the lunch break can be kept. -/
theorem getAvailableSlots_characterization (sessions : List Session)
    (practitionerId : Nat) (durationMin : ℕ) (now : Int) :
    (∀ p : Int × Int,
      p ∈ getAvailableSlots sessions practitionerId durationMin now ↔
      ∃ n ∈ slotGrid,
        (¬(lunchStart ≤ n / 60 ∧ n / 60 < lunchEnd) ∧
          ¬((n + durationMin) / 60 % 24 ≥ workingEnd ∨
            ((n + durationMin) / 60 % 24 = lunchStart ∧
              0 < (n + durationMin) % 60)) ∧
          now < (n : Int) * 60000 ∧
          ∀ c ∈ bookedOnDate sessions practitionerId,
            ¬((n : Int) * 60000 < c.endTime ∧
              ((n + durationMin : ℕ) : Int) * 60000 > c.startTime)) ∧
        p = ((n : Int) * 60000, Int.ofNat (n + durationMin) * 60000)) ∧
    List.Pairwise (fun p q : Int × Int => p.1 < q.1)
      (getAvailableSlots sessions practitionerId durationMin now) := by
  constructor
  · intro p
    simp only [getAvailableSlots, List.mem_map, List.mem_filter]
    constructor
    · rintro ⟨n, ⟨hg, hk⟩, rfl⟩
      exact ⟨n, hg,
        (slotKeep_eq_true_iff (bookedOnDate sessions practitionerId)
          durationMin now n).mp hk, rfl⟩
    · rintro ⟨n, hg, hk, rfl⟩
      exact ⟨n, ⟨hg,
        (slotKeep_eq_true_iff (bookedOnDate sessions practitionerId)
          durationMin now n).mpr hk⟩, rfl⟩
  · have hgrid : List.Pairwise (fun a b : ℕ => a < b) slotGrid := by decide
    have hfilter : List.Pairwise (fun a b : ℕ => a < b)
        (slotGrid.filter
          (slotKeep (bookedOnDate sessions practitionerId) durationMin now)) :=
      hgrid.sublist (List.filter_sublist _)
    exact hfilter.map _ (fun a b hab => by
      simp only []
      omega)

end Panchkarma
